import Mathlib

/-!
Verification of the face-recognition CLI's database layer and command
workflows, shallowly embedded from the Go sources
(`internal/database/models/*.go`, `internal/database/json.go`,
`cmd/enroll.go`, `cmd/identify.go`, `cmd/update.go`).

Conventions of the embedding:
* Go `float64` scores and embedding components are modelled as `ℚ`
  (the claims under study are about comparisons and data flow, not
  floating-point rounding); the matcher's real-valued cosine similarity,
  absent from the sources, is modelled over `ℝ` from the spec.
* Go `time.Now()` is an explicit `now : Nat` parameter; `uuid.New()` is an
  explicit `freshID : String` parameter.
* Fallible Go functions returning `error` become `Except DBError _` /
  `Except String _`; a returned `.error` leaves the caller's state
  untouched, which mirrors the Go code (no mutation happens before any
  error return in the modelled functions).
* `User.Metadata` (a JSON map, irrelevant to every claim) is omitted.
-/

deriving instance DecidableEq for Except

/-- Errors of `internal/database/models/errors.go`, plus `validationMsg`
for the ad-hoc `errors.New(...)` messages of the `Validate` methods and
`enroll.go`/`update.go`. -/
inductive DBError where
  | userNotFound
  | userAlreadyExists
  | faceNotDetected
  | multipleFaces
  | noMatch
  | invalidImage
  | databaseCorrupt
  | maxFacesReached
  | emptyName
  | invalidID
  | validationMsg (msg : String)
deriving Repr, DecidableEq

/-- `models.Face` (`internal/database/models/face.go`). -/
structure Face where
  id : String
  userID : String
  filename : String
  embedding : List ℚ
  qualityScore : ℚ
  enrolledAt : Nat
deriving Repr, DecidableEq

/-- `Face.Validate` (`face.go` lines 24–38): empty-ID, empty-filename,
empty-embedding and quality-range checks, in source order. -/
def Face.Validate (f : Face) : Except DBError Unit :=
  if f.id = "" then .error .invalidID
  else if f.filename = "" then .error (.validationMsg "filename cannot be empty")
  else if f.embedding.length = 0 then .error (.validationMsg "embedding cannot be empty")
  else if f.qualityScore < 0 ∨ f.qualityScore > 1 then
    .error (.validationMsg "quality score must be between 0 and 1")
  else .ok ()

/-- `models.User` (`internal/database/models/user.go`), metadata omitted. -/
structure User where
  id : String
  name : String
  email : String
  phone : String
  faces : List Face
  createdAt : Nat
  updatedAt : Nat
deriving Repr, DecidableEq

/-- `User.Validate` (`user.go` lines 26–37). Go's `len(u.Name)` counts
bytes; we use `String.length`, which agrees on the ASCII names used in
every concrete instance below. -/
def User.Validate (u : User) : Except DBError Unit :=
  if u.id = "" then .error .invalidID
  else if u.name = "" then .error .emptyName
  else if u.name.length > 100 then
    .error (.validationMsg "name exceeds maximum length of 100 characters")
  else .ok ()

/-- `models.Settings` (`internal/database/models/settings.go`).
`MaxFacesPerUser` is a Go `int`, kept as `Int`. -/
structure Settings where
  id : Int
  matchThreshold : ℚ
  maxFacesPerUser : Int
  embeddingDimension : Int
deriving Repr, DecidableEq

/-- `models.DefaultSettings`. -/
def DefaultSettings : Settings :=
  { id := 1, matchThreshold := 6/10, maxFacesPerUser := 10, embeddingDimension := 128 }

/-- The in-memory `jsonData` of `internal/database/json.go`. -/
structure JsonData where
  version : String
  users : List User
  settings : Settings
deriving Repr, DecidableEq

/-- `newJSONData` (`json.go` lines 23–34). -/
def newJSONData : JsonData :=
  { version := "1.0", users := [], settings := DefaultSettings }

namespace JSONDatabase

/-- `JSONDatabase.CreateUser` (`json.go` lines 91–123), as a transition on
the in-memory `jsonData`; the trailing `saveInternal` disk write is
modelled separately (see `saveInternal` below). The `uuid` branch is kept
although `Validate` has already rejected an empty ID. -/
def CreateUser (d : JsonData) (user : User) (now : Nat) (freshID : String) :
    Except DBError JsonData :=
  match user.Validate with
  | .error e => .error e
  | .ok () =>
    if d.users.any (fun u => u.id = user.id) then
      .error .userAlreadyExists
    else
      let u := { user with
        createdAt := now
        updatedAt := now
        id := if user.id = "" then freshID else user.id }
      .ok { d with users := d.users ++ [u] }

/-- The user-scanning loop of `JSONDatabase.AddFace` (`json.go` lines
210–226): first user with the given ID gets the face appended, subject to
the `MaxFacesPerUser` bound; no user found means `ErrUserNotFound`. -/
def addFaceLoop (users : List User) (settings : Settings) (userID : String)
    (face : Face) (now : Nat) (freshID : String) : Except DBError (List User) :=
  match users with
  | [] => .error .userNotFound
  | u :: rest =>
    if u.id ≠ userID then
      (addFaceLoop rest settings userID face now freshID).map (u :: ·)
    else if (u.faces.length : Int) ≥ settings.maxFacesPerUser then
      .error .maxFacesReached
    else
      let f := { face with
        id := if face.id = "" then freshID else face.id
        enrolledAt := now }
      .ok ({ u with faces := u.faces ++ [f], updatedAt := now } :: rest)

/-- `JSONDatabase.AddFace` (`json.go` lines 202–229): validate, then scan. -/
def AddFace (d : JsonData) (userID : String) (face : Face) (now : Nat)
    (freshID : String) : Except DBError JsonData :=
  match face.Validate with
  | .error e => .error e
  | .ok () =>
    (addFaceLoop d.users d.settings userID face now freshID).map
      (fun us => { d with users := us })

/-- The user-scanning loop of `JSONDatabase.UpdateUser` (`json.go` lines
164–171): the first user with the incoming ID is replaced by the incoming
record, with `UpdatedAt` refreshed and `CreatedAt` overwritten by the
stored original. -/
def updateUserLoop (users : List User) (user : User) (now : Nat) :
    Except DBError (List User) :=
  match users with
  | [] => .error .userNotFound
  | u :: rest =>
    if u.id = user.id then
      .ok ({ user with updatedAt := now, createdAt := u.createdAt } :: rest)
    else
      (updateUserLoop rest user now).map (u :: ·)

/-- `JSONDatabase.UpdateUser` (`json.go` lines 156–174). -/
def UpdateUser (d : JsonData) (user : User) (now : Nat) :
    Except DBError JsonData :=
  match user.Validate with
  | .error e => .error e
  | .ok () =>
    (updateUserLoop d.users user now).map (fun us => { d with users := us })

/-- `JSONDatabase.GetAllEmbeddings` (`json.go` lines 256–268): one entry
per user with a non-empty face list, in user order. Go's
`map[string][]models.Face` is rendered as an association list; with the
no-duplicate-ID invariant of the database the two agree under lookup. -/
def GetAllEmbeddings (d : JsonData) : List (String × List Face) :=
  d.users.filterMap (fun u =>
    if 0 < u.faces.length then some (u.id, u.faces) else none)

end JSONDatabase

/-! ### Command workflows (`cmd/enroll.go`, `cmd/identify.go`, `cmd/update.go`)

The per-image face pipeline `FaceSystem.ProcessImage` and the storage's
`SaveImage` live outside the database layer (detector/extractor internals
are external to these workflows); each image is therefore supplied to the
workflow embeddings together with the outcome those collaborators produce
for it, and the workflow's own control flow is translated literally. -/

/-- The fields of `cmd/helpers.go`'s `FaceResult` that the workflows
consume (the raw and cropped images only flow into `SaveImage`, whose
outcome is supplied separately). -/
structure ProcessResult where
  embedding : List ℚ
  qualityScore : ℚ
deriving Repr, DecidableEq

/-- One input image of a workflow run: the outcome of
`fs.ProcessImage` on it, the `uuid.New()` face ID the workflow would
draw, and the outcome (stored filename, or error) of
`fs.Storage.SaveImage` were it attempted. -/
structure ImageInput where
  processResult : Except String ProcessResult
  faceID : String
  saveResult : Except String String
deriving Repr, DecidableEq

/-- The per-image body of `runEnroll`'s loop (`enroll.go` lines 81–111):
`none` when the iteration `continue`s without appending a face
(processing failed, quality below 0.3, or saving failed), otherwise the
`models.Face` appended to `user.Faces`. -/
def enrollImage (img : ImageInput) : Option Face :=
  match img.processResult with
  | .error _ => none
  | .ok r =>
    if r.qualityScore < 3/10 then none
    else
      match img.saveResult with
      | .error _ => none
      | .ok filename =>
        some { id := img.faceID, userID := "", filename := filename,
               embedding := r.embedding, qualityScore := r.qualityScore,
               enrolledAt := 0 }

/-- The faces accumulated by `runEnroll`'s loop over all images, in input
order. -/
def enrolledFaces (imgs : List ImageInput) : List Face :=
  imgs.filterMap enrollImage

/-- Result of `runEnroll`: the distinguished "no faces were successfully
enrolled" error, a `CreateUser` failure, or success with the new database
state and the created user. -/
inductive EnrollOutcome where
  | noFaces
  | dbError (e : DBError)
  | success (d : JsonData) (user : User)
deriving Repr, DecidableEq

/-- `runEnroll` (`enroll.go` lines 47–129) after image-path parsing: loop
over the images collecting faces, fail with the "no faces" error when
none succeeded, otherwise create the user carrying exactly the collected
faces. -/
def runEnroll (d : JsonData) (imgs : List ImageInput) (userID name email phone : String)
    (now : Nat) : EnrollOutcome :=
  let user : User := { id := userID, name := name, email := email, phone := phone,
                       faces := enrolledFaces imgs, createdAt := 0, updatedAt := 0 }
  if user.faces.length = 0 then .noFaces
  else
    match JSONDatabase.CreateUser d user now userID with
    | .error e => .dbError e
    | .ok d' => .success d' user

/-- The failure cases of `runIdentify` after a face was sought. -/
inductive IdentifyError where
  | processFailed (msg : String)
  | findMatchesFailed (e : DBError)
  | matchFailed (e : DBError)
deriving Repr, DecidableEq

/-- Collaborator outcomes consumed by one `runIdentify` run: the
`fs.ProcessImage` outcome and what `matcher.FindBestMatches` /
`matcher.Match` (package `internal/face`, external to this layer) return
for the extracted embedding. `matchResult` carries the matched user and
face IDs with the confidence on success. -/
structure IdentifyEnv where
  processResult : Except String ProcessResult
  findBestMatchesResult : Except DBError (List (String × ℚ))
  matchResult : Except DBError (String × String × ℚ)
deriving Repr, DecidableEq

/-- Observable outcome of `runIdentify`: its returned error value, whether
the low-quality warning was printed, and whether the run reached the
matching phase. -/
structure IdentifyRun where
  result : Except IdentifyError Unit
  warned : Bool
  attemptedMatch : Bool
deriving Repr, DecidableEq

/-- `runIdentify` (`identify.go` lines 44–108): process the image, warn
(only) below quality 0.2, return successfully on an empty database,
otherwise match; `ErrNoMatch` from `Match` is reported and swallowed
(`return nil`), every other `Match` error is propagated. -/
def runIdentify (d : JsonData) (env : IdentifyEnv) : IdentifyRun :=
  match env.processResult with
  | .error msg => { result := .error (.processFailed msg), warned := false,
                    attemptedMatch := false }
  | .ok r =>
    let warned := decide (r.qualityScore < 2/10)
    if d.users.length = 0 then
      { result := .ok (), warned := warned, attemptedMatch := false }
    else
      match env.findBestMatchesResult with
      | .error e => { result := .error (.findMatchesFailed e), warned := warned,
                      attemptedMatch := true }
      | .ok _ =>
        match env.matchResult with
        | .error e =>
          if e = .noMatch then
            { result := .ok (), warned := warned, attemptedMatch := true }
          else
            { result := .error (.matchFailed e), warned := warned,
              attemptedMatch := true }
        | .ok _ => { result := .ok (), warned := warned, attemptedMatch := true }

/-- `addFaceToUser` (`update.go` lines 134–169): process, reject below
quality 0.3 with an error (no storage), save the image, then
`DB.AddFace`. Returns the updated database state on success. -/
def addFaceToUser (d : JsonData) (userID : String) (img : ImageInput) (now : Nat) :
    Except String JsonData :=
  match img.processResult with
  | .error msg => .error msg
  | .ok r =>
    if r.qualityScore < 3/10 then
      .error "quality too low, minimum required: 0.30"
    else
      match img.saveResult with
      | .error msg => .error ("failed to save image: " ++ msg)
      | .ok filename =>
        let face : Face := { id := img.faceID, userID := "", filename := filename,
                             embedding := r.embedding, qualityScore := r.qualityScore,
                             enrolledAt := 0 }
        match JSONDatabase.AddFace d userID face now img.faceID with
        | .error _ => .error "failed to add face to database"
        | .ok d' => .ok d'

/-! ### Backup-then-write persistence (`JSONDatabase.saveInternal`)

`saveInternal` (`json.go` lines 289–311) manipulates two paths: the
database file and the `.backup` path next to it. The filesystem is
modelled as the contents at those two paths; `os.Rename` moves contents,
`os.Stat` succeeds exactly on present contents, `os.Remove` deletes.
`json.MarshalIndent` on the in-memory data cannot fail and is abstracted
as the string `newData`; `os.WriteFile`'s outcome is the parameter
`writeOk`, and `junk` is whatever a failed write leaves at the target
(partial content or nothing). -/

/-- Contents at the database path and at its `.backup` sibling. -/
structure FSState where
  main : Option String
  backup : Option String
deriving Repr, DecidableEq

/-- `saveInternal`: rename an existing file to the backup path, write the
new contents, and on a failed write rename the backup (if present) back;
on success remove the backup. Returns the resulting filesystem and
`true` for Go's `nil` error. -/
def saveInternal (st : FSState) (newData : String) (writeOk : Bool)
    (junk : Option String) : FSState × Bool :=
  let st1 : FSState :=
    match st.main with
    | some c => { main := none, backup := some c }
    | none => st
  if writeOk then
    ({ main := some newData, backup := none }, true)
  else
    let st2 : FSState := { st1 with main := junk }
    match st2.backup with
    | some c => ({ main := some c, backup := none }, false)
    | none => (st2, false)

/-! ### Cosine similarity (spec §4.3), modelled from the spec

The matcher implementation (`internal/face`) is not among the sources;
only its callers are. -/

/-- Dot product of two vectors, truncated at the shorter length. -/
def dotList (a b : List ℝ) : ℝ := (List.zipWith (· * ·) a b).sum

/-- Sum of squares of a vector's entries. -/
def sumSq (a : List ℝ) : ℝ := (a.map (fun x => x * x)).sum

/-- L2 norm of a vector. -/
noncomputable def norm2 (a : List ℝ) : ℝ := Real.sqrt (sumSq a)

/-- Modelled from the spec: `Similarity(a, b) = dot(a,b) / (‖a‖·‖b‖)`,
returning exactly 0 (not an error, not NaN) when either norm is zero
(the matcher source, `internal/face`, is not in the repository snapshot;
this follows spec §4.3 verbatim). -/
noncomputable def Similarity (a b : List ℝ) : ℝ :=
  if norm2 a = 0 ∨ norm2 b = 0 then 0
  else dotList a b / (norm2 a * norm2 b)

/-! ### Concrete fixtures used by counterexamples and witnesses -/

/-- A face that passes `Face.Validate` although its embedding has length
1, not 128. -/
def shortEmbFace : Face :=
  { id := "f1", userID := "", filename := "a.png", embedding := [1],
    qualityScore := 1/2, enrolledAt := 0 }

/-- A database holding one user with no faces. -/
def oneUserDb : JsonData :=
  { newJSONData with users :=
      [{ id := "u1", name := "Alice", email := "", phone := "", faces := [],
         createdAt := 0, updatedAt := 0 }] }

/-- A face whose quality score 2 is out of the [0,1] range. -/
def badQualityFace : Face :=
  { id := "f2", userID := "", filename := "b.png", embedding := [1],
    qualityScore := 2, enrolledAt := 0 }

/-- A user (valid per `User.Validate`) carrying `badQualityFace`. -/
def badQualityUser : User :=
  { id := "u2", name := "Bob", email := "", phone := "", faces := [badQualityFace],
    createdAt := 0, updatedAt := 0 }

/-- A well-formed stored face used to fill a face list. -/
def storedFace : Face :=
  { id := "s1", userID := "", filename := "s.png", embedding := [1],
    qualityScore := 1/2, enrolledAt := 0 }

/-- A user already holding `MaxFacesPerUser = 10` faces. -/
def carolUser : User :=
  { id := "u3", name := "Carol", email := "", phone := "",
    faces := List.replicate 10 storedFace, createdAt := 0, updatedAt := 0 }

/-- A database whose single user already holds `MaxFacesPerUser = 10`
faces. -/
def fullUserDb : JsonData :=
  { newJSONData with users := [carolUser] }

/-- A face rejected by `Face.Validate` (empty filename). -/
def noFilenameFace : Face :=
  { id := "f3", userID := "", filename := "", embedding := [1],
    qualityScore := 1/2, enrolledAt := 0 }

/-- A user that fails `User.Validate` (empty name) whose ID matches no
stored user. -/
def ghostUser : User :=
  { id := "ghost", name := "", email := "", phone := "", faces := [],
    createdAt := 0, updatedAt := 0 }

/-- An image input that processes successfully at quality 0.9 and saves
successfully. -/
def goodImage : ImageInput :=
  { processResult := .ok { embedding := [1], qualityScore := 9/10 },
    faceID := "fid1", saveResult := .ok "stored.png" }

/-- An image input whose processed quality 0.1 is below every floor. -/
def lowQualityImage : ImageInput :=
  { processResult := .ok { embedding := [1], qualityScore := 1/10 },
    faceID := "fid2", saveResult := .ok "stored2.png" }

/-- An image input whose processing fails outright. -/
def failingImage : ImageInput :=
  { processResult := .error "no face detected in image", faceID := "fid3",
    saveResult := .ok "stored3.png" }

/-- An identify-run environment: processing succeeds at quality 0.1 and
the matcher signals the expected no-match outcome. -/
def noMatchEnv : IdentifyEnv :=
  { processResult := .ok { embedding := [1], qualityScore := 1/10 },
    findBestMatchesResult := .ok [("u1", 1/2)],
    matchResult := .error .noMatch }

/-- `oneUserDb` after `AddFace` stores `storedFace` for `"u1"` at time 0. -/
def addedDb : JsonData :=
  { newJSONData with users :=
      [{ id := "u1", name := "Alice", email := "", phone := "", faces := [storedFace],
         createdAt := 0, updatedAt := 0 }] }

/-- A user that passes `User.Validate` but is stored nowhere. -/
def ninaUser : User :=
  { id := "u9", name := "Nina", email := "", phone := "", faces := [],
    createdAt := 3, updatedAt := 3 }

/-- The face the enrollment loop builds from `goodImage`. -/
def goodFace : Face :=
  { id := "fid1", userID := "", filename := "stored.png", embedding := [1],
    qualityScore := 9/10, enrolledAt := 0 }

/-! ## Helper lemmas -/

/-- Destructuring `Except.map` at a successful result. -/
theorem except_map_eq_ok {ε α β : Type _} (f : α → β) (e : Except ε α) (b : β) :
    e.map f = .ok b ↔ ∃ a, e = .ok a ∧ f a = b := by
  cases e <;> simp [Except.map]

/-- A face accepted by `Face.Validate` has a quality score in [0,1]. -/
theorem validate_ok_quality (f : Face) (h : f.Validate = .ok ()) :
    0 ≤ f.qualityScore ∧ f.qualityScore ≤ 1 := by
  unfold Face.Validate at h
  split at h
  · simp at h
  · split at h
    · simp at h
    · split at h
      · simp at h
      · split at h
        · simp at h
        · rename_i hq
          push_neg at hq
          exact ⟨hq.1, hq.2⟩

/-- `addFaceLoop` preserves the bounded-quality invariant when the added
face's quality is in range. -/
theorem addFaceLoop_quality (users : List User) (settings : Settings)
    (uid : String) (face : Face) (now : Nat) (fid : String) (users' : List User)
    (hok : JSONDatabase.addFaceLoop users settings uid face now fid = .ok users')
    (hface : 0 ≤ face.qualityScore ∧ face.qualityScore ≤ 1)
    (hinv : ∀ u ∈ users, ∀ g ∈ u.faces, 0 ≤ g.qualityScore ∧ g.qualityScore ≤ 1) :
    ∀ u ∈ users', ∀ g ∈ u.faces, 0 ≤ g.qualityScore ∧ g.qualityScore ≤ 1 := by
  induction users generalizing users' with
  | nil => simp [JSONDatabase.addFaceLoop] at hok
  | cons u rest ih =>
    unfold JSONDatabase.addFaceLoop at hok
    split at hok
    · rw [except_map_eq_ok] at hok
      obtain ⟨us', hrec, rfl⟩ := hok
      intro v hv
      rcases List.mem_cons.mp hv with rfl | hv'
      · exact hinv v (List.mem_cons_self _ _)
      · exact ih us' hrec (fun w hw => hinv w (List.mem_cons_of_mem _ hw)) v hv'
    · split at hok
      · simp at hok
      · rcases hok with ⟨rfl⟩
        intro v hv
        rcases List.mem_cons.mp hv with rfl | hv'
        · intro g hg
          rcases List.mem_append.mp hg with hg' | hg'
          · exact hinv u (List.mem_cons_self _ _) g hg'
          · rcases List.mem_singleton.mp hg' with rfl
            exact hface
        · exact hinv v (List.mem_cons_of_mem _ hv')

/-- `shortEmbFace` passes `Face.Validate`. -/
theorem shortEmbFace_valid : Face.Validate shortEmbFace = .ok () := by
  simp [Face.Validate, shortEmbFace]
  norm_num

/-- `storedFace` passes `Face.Validate`. -/
theorem storedFace_valid : Face.Validate storedFace = .ok () := by
  simp [Face.Validate, storedFace]
  norm_num

/-- Evaluating `AddFace` on `oneUserDb` with `storedFace`. -/
theorem addFace_oneUserDb_eval :
    JSONDatabase.AddFace oneUserDb "u1" storedFace 0 "fresh" = .ok addedDb := by
  simp [JSONDatabase.AddFace, JSONDatabase.addFaceLoop, Face.Validate, storedFace,
    oneUserDb, addedDb, newJSONData, DefaultSettings, Except.map]
  norm_num

/-- The bounded-quality invariant holds in `oneUserDb` (no faces). -/
theorem oneUserDb_quality_inv :
    ∀ u ∈ oneUserDb.users, ∀ g ∈ u.faces, 0 ≤ g.qualityScore ∧ g.qualityScore ≤ 1 := by
  simp [oneUserDb, newJSONData]

/-! ## Claim C1 -/

/-- C1 counterexample: `shortEmbFace` has an embedding of length 1, yet
`Face.Validate` accepts it and `AddFace` stores it, so validation does
not enforce embedding length 128. -/
theorem c1_validate_not_128_cex :
    Face.Validate shortEmbFace = .ok () ∧
    shortEmbFace.embedding.length ≠ 128 ∧
    (JSONDatabase.AddFace oneUserDb "u1" shortEmbFace 0 "fresh").isOk = true := by
  refine ⟨shortEmbFace_valid, by simp [shortEmbFace], ?_⟩
  simp [JSONDatabase.AddFace, JSONDatabase.addFaceLoop, Face.Validate, shortEmbFace,
    oneUserDb, newJSONData, DefaultSettings, Except.map, Except.isOk,
    Except.toBool]
  norm_num

/-- C1 (amended): a face accepted by `Face.Validate` (hence storable by
`AddFace`) has a non-empty embedding — length at least 1, with no bound
tying it to 128. -/
theorem c1_validate_embedding_nonempty (f : Face) (h : f.Validate = .ok ()) :
    1 ≤ f.embedding.length := by
  unfold Face.Validate at h
  split at h
  · simp at h
  · split at h
    · simp at h
    · split at h
      · simp at h
      · omega

/-- C1 witness: the amended theorem applied to `shortEmbFace`. -/
theorem c1_witness : 1 ≤ shortEmbFace.embedding.length :=
  c1_validate_embedding_nonempty shortEmbFace shortEmbFace_valid

/-! ## Claim C5 -/

/-- C5: `saveInternal` is backup-then-write with restore-on-failure: a
successful write leaves the new contents at the database path with the
backup removed and reports success; a failed write with a previously
existing database file leaves that file's old contents restored at the
database path and reports an error. -/
theorem c5_saveInternal_backup (st : FSState) (newData : String) (junk : Option String) :
    saveInternal st newData true junk = ({ main := some newData, backup := none }, true) ∧
    ∀ old, st.main = some old →
      saveInternal st newData false junk = ({ main := some old, backup := none }, false) := by
  obtain ⟨m, b⟩ := st
  constructor
  · cases m <;> simp [saveInternal]
  · intro old h
    cases m <;> simp_all [saveInternal]

/-- C5 witness: a failed write over an existing file restores the old
contents. -/
theorem c5_witness :
    saveInternal { main := some "olddata", backup := none } "newdata" false none =
      ({ main := some "olddata", backup := none }, false) :=
  (c5_saveInternal_backup { main := some "olddata", backup := none } "newdata" none).2
    "olddata" rfl

/-! ## Claim C7 -/

/-- C7 counterexample: `CreateUser` never runs `Face.Validate` on the
supplied user's faces, so it stores `badQualityUser`'s face whose quality
score 2 is outside [0,1] (while `AddFace`, which does validate, rejects
that same face). -/
theorem c7_createUser_skips_quality_cex :
    JSONDatabase.CreateUser newJSONData badQualityUser 0 "fresh" =
      .ok { newJSONData with users := [badQualityUser] } ∧
    badQualityFace ∈ badQualityUser.faces ∧ 1 < badQualityFace.qualityScore ∧
    JSONDatabase.AddFace oneUserDb "u1" badQualityFace 0 "fresh" =
      .error (.validationMsg "quality score must be between 0 and 1") := by
  refine ⟨?_, by simp [badQualityUser], by norm_num [badQualityFace], ?_⟩
  · simp [JSONDatabase.CreateUser, User.Validate, badQualityUser, newJSONData,
      show ¬(100 < "Bob".length) from by decide]
  · simp [JSONDatabase.AddFace, Face.Validate, badQualityFace]

/-- C7 (amended): `Face.Validate` errors on a quality score outside
[0,1], so every face accepted by validation has quality in [0,1], and
`AddFace` — which validates the incoming face — preserves the
bounded-quality invariant over all users; `CreateUser` does not validate
faces and offers no such guarantee. -/
theorem c7_quality_bounded :
    (∀ f : Face, f.Validate = .ok () → 0 ≤ f.qualityScore ∧ f.qualityScore ≤ 1) ∧
    (∀ (d : JsonData) (uid : String) (face : Face) (now : Nat) (fid : String)
        (d' : JsonData),
      JSONDatabase.AddFace d uid face now fid = .ok d' →
      (∀ u ∈ d.users, ∀ g ∈ u.faces, 0 ≤ g.qualityScore ∧ g.qualityScore ≤ 1) →
      ∀ u ∈ d'.users, ∀ g ∈ u.faces, 0 ≤ g.qualityScore ∧ g.qualityScore ≤ 1) := by
  refine ⟨validate_ok_quality, ?_⟩
  intro d uid face now fid d' hok hinv
  unfold JSONDatabase.AddFace at hok
  split at hok
  · simp at hok
  · rename_i hval
    rw [except_map_eq_ok] at hok
    obtain ⟨us', hloop, rfl⟩ := hok
    exact addFaceLoop_quality d.users d.settings uid face now fid us' hloop
      (validate_ok_quality face hval) hinv

/-- C7 witness: the amended theorem applied to `storedFace` and to the
concrete `AddFace` run taking `oneUserDb` to `addedDb`. -/
theorem c7_witness :
    (0 ≤ storedFace.qualityScore ∧ storedFace.qualityScore ≤ 1) ∧
    (∀ u ∈ addedDb.users, ∀ g ∈ u.faces, 0 ≤ g.qualityScore ∧ g.qualityScore ≤ 1) :=
  ⟨c7_quality_bounded.1 storedFace storedFace_valid,
   c7_quality_bounded.2 oneUserDb "u1" storedFace 0 "fresh" addedDb
     addFace_oneUserDb_eval oneUserDb_quality_inv⟩

/-! ## Claim C9 -/

/-- If some stored user matches the requested ID and is at capacity, the
`AddFace` scan reports `ErrMaxFacesReached` (IDs assumed unique, the
invariant `CreateUser` maintains). -/
theorem addFaceLoop_maxReached (users : List User) (settings : Settings)
    (uid : String) (face : Face) (now : Nat) (fid : String)
    (hnd : (users.map User.id).Nodup) (u : User) (hu : u ∈ users) (hid : u.id = uid)
    (hfull : (u.faces.length : Int) ≥ settings.maxFacesPerUser) :
    JSONDatabase.addFaceLoop users settings uid face now fid = .error .maxFacesReached := by
  induction users with
  | nil => cases hu
  | cons v rest ih =>
    rw [List.map_cons, List.nodup_cons] at hnd
    rcases List.mem_cons.mp hu with rfl | hmem
    · unfold JSONDatabase.addFaceLoop
      rw [if_neg (by simp [hid]), if_pos hfull]
    · have hvne : v.id ≠ uid := by
        intro hveq
        exact hnd.1 (hveq.trans hid.symm ▸ List.mem_map_of_mem User.id hmem)
      unfold JSONDatabase.addFaceLoop
      rw [if_pos hvne, ih hnd.2 hmem]
      rfl

/-- The `AddFace` scan never pushes a user past the configured maximum. -/
theorem addFaceLoop_count (users : List User) (settings : Settings)
    (uid : String) (face : Face) (now : Nat) (fid : String) (users' : List User)
    (hok : JSONDatabase.addFaceLoop users settings uid face now fid = .ok users')
    (hbound : ∀ u ∈ users, (u.faces.length : Int) ≤ settings.maxFacesPerUser) :
    ∀ u ∈ users', (u.faces.length : Int) ≤ settings.maxFacesPerUser := by
  induction users generalizing users' with
  | nil => simp [JSONDatabase.addFaceLoop] at hok
  | cons v rest ih =>
    unfold JSONDatabase.addFaceLoop at hok
    split at hok
    · rw [except_map_eq_ok] at hok
      obtain ⟨us', hrec, rfl⟩ := hok
      intro u hu
      rcases List.mem_cons.mp hu with rfl | hu'
      · exact hbound u (List.mem_cons_self _ _)
      · exact ih us' hrec (fun w hw => hbound w (List.mem_cons_of_mem _ hw)) u hu'
    · split at hok
      · simp at hok
      · rename_i hne hcap
        cases hok
        intro u hu
        rcases List.mem_cons.mp hu with rfl | hu'
        · push_neg at hcap
          simp only [List.length_append, List.length_singleton]
          push_cast
          omega
        · exact hbound u (List.mem_cons_of_mem _ hu')

/-- C9 counterexample: with user `"u3"` already at the maximum of 10
faces, `AddFace` with a face that fails validation returns the
validation error, not `ErrMaxFacesReached`. -/
theorem c9_addFace_full_user_cex :
    (∃ u ∈ fullUserDb.users, u.id = "u3" ∧
      (u.faces.length : Int) ≥ fullUserDb.settings.maxFacesPerUser) ∧
    JSONDatabase.AddFace fullUserDb "u3" noFilenameFace 0 "fresh" =
      .error (.validationMsg "filename cannot be empty") ∧
    .error (.validationMsg "filename cannot be empty") ≠
      (.error .maxFacesReached : Except DBError JsonData) := by
  refine ⟨?_, ?_, by simp⟩
  · simp [fullUserDb, carolUser, newJSONData, DefaultSettings]
  · simp [JSONDatabase.AddFace, Face.Validate, noFilenameFace]

/-- C9 (amended): when the incoming face passes validation and the
requested user is already at `MaxFacesPerUser`, `AddFace` fails with
`ErrMaxFacesReached` (leaving the database untouched, as every `.error`
of this transition does); a face failing validation yields the
validation error instead. In every case, a successful `AddFace` keeps
each user's face count within the configured maximum and preserves the
settings. -/
theorem c9_addFace_respects_max (d : JsonData) (uid : String) (face : Face)
    (now : Nat) (fid : String) :
    ((d.users.map User.id).Nodup → face.Validate = .ok () →
      ∀ u ∈ d.users, u.id = uid →
      (u.faces.length : Int) ≥ d.settings.maxFacesPerUser →
      JSONDatabase.AddFace d uid face now fid = .error .maxFacesReached) ∧
    (∀ d', JSONDatabase.AddFace d uid face now fid = .ok d' →
      (∀ u ∈ d.users, (u.faces.length : Int) ≤ d.settings.maxFacesPerUser) →
      d'.settings = d.settings ∧
      ∀ u ∈ d'.users, (u.faces.length : Int) ≤ d'.settings.maxFacesPerUser) := by
  constructor
  · intro hnd hval u hu hid hfull
    unfold JSONDatabase.AddFace
    rw [hval]
    rw [addFaceLoop_maxReached d.users d.settings uid face now fid hnd u hu hid hfull]
    rfl
  · intro d' hok hbound
    unfold JSONDatabase.AddFace at hok
    split at hok
    · simp at hok
    · rename_i hval
      rw [except_map_eq_ok] at hok
      obtain ⟨us', hloop, rfl⟩ := hok
      exact ⟨rfl, addFaceLoop_count d.users d.settings uid face now fid us' hloop hbound⟩

/-- C9 witness: the amended theorem at `fullUserDb` with the valid
`storedFace`. -/
theorem c9_witness :
    JSONDatabase.AddFace fullUserDb "u3" storedFace 0 "fresh" =
      .error .maxFacesReached :=
  (c9_addFace_respects_max fullUserDb "u3" storedFace 0 "fresh").1
    (by simp [fullUserDb, carolUser, newJSONData]) storedFace_valid carolUser
    (by simp [fullUserDb, newJSONData]) (by simp [carolUser])
    (by simp [fullUserDb, carolUser, newJSONData, DefaultSettings])

/-! ## Claim C10 -/

/-- When no stored user carries the incoming ID, the `UpdateUser` scan
reports `ErrUserNotFound`. -/
theorem updateUserLoop_notFound (users : List User) (user : User) (now : Nat)
    (hnone : ∀ u ∈ users, u.id ≠ user.id) :
    JSONDatabase.updateUserLoop users user now = .error .userNotFound := by
  induction users with
  | nil => rfl
  | cons v rest ih =>
    unfold JSONDatabase.updateUserLoop
    rw [if_neg (hnone v (List.mem_cons_self _ _)),
      ih (fun u hu => hnone u (List.mem_cons_of_mem _ hu))]
    rfl

/-- A successful `UpdateUser` scan replaces exactly the first user whose
ID matches, giving it the stored `createdAt` and the fresh `updatedAt`. -/
theorem updateUserLoop_ok_decomp (users : List User) (user : User) (now : Nat)
    (users' : List User)
    (hok : JSONDatabase.updateUserLoop users user now = .ok users') :
    ∃ pre u post, users = pre ++ u :: post ∧ u.id = user.id ∧
      users' = pre ++ ({ user with createdAt := u.createdAt, updatedAt := now } :: post) := by
  induction users generalizing users' with
  | nil => simp [JSONDatabase.updateUserLoop] at hok
  | cons v rest ih =>
    unfold JSONDatabase.updateUserLoop at hok
    split at hok
    · rename_i hid
      cases hok
      exact ⟨[], v, rest, by simp, hid, by simp⟩
    · rw [except_map_eq_ok] at hok
      obtain ⟨us', hrec, rfl⟩ := hok
      obtain ⟨pre, u, post, h1, h2, h3⟩ := ih us' hrec
      exact ⟨v :: pre, u, post, by simp [h1], h2, by simp [h3]⟩

/-- C10 counterexample: for an input user failing `User.Validate` whose
ID matches no stored user, `UpdateUser` returns the validation error
`ErrEmptyName`, not `ErrUserNotFound`. -/
theorem c10_invalid_user_cex :
    newJSONData.users = [] ∧
    JSONDatabase.UpdateUser newJSONData ghostUser 5 = .error .emptyName ∧
    .error .emptyName ≠ (.error .userNotFound : Except DBError JsonData) := by
  refine ⟨rfl, ?_, by simp⟩
  simp [JSONDatabase.UpdateUser, User.Validate, ghostUser]

/-- C10 (amended): `UpdateUser` never changes any user's `CreatedAt`: a
successful call replaces exactly the first stored user with the incoming
ID, keeping that user's stored `CreatedAt` and refreshing `UpdatedAt` to
the call time, and preserves everyone's `CreatedAt` values; when the
input passes validation and no stored user has its ID, it returns
`ErrUserNotFound` (inputs failing validation get the validation error
instead), and every error leaves the database state unchanged (the
transition returns no new state). -/
theorem c10_updateUser_preserves_createdAt (d : JsonData) (user : User) (now : Nat) :
    ((user.Validate = .ok () → (∀ u ∈ d.users, u.id ≠ user.id) →
      JSONDatabase.UpdateUser d user now = .error .userNotFound)) ∧
    (∀ d', JSONDatabase.UpdateUser d user now = .ok d' →
      d'.version = d.version ∧ d'.settings = d.settings ∧
      (∃ pre u post, d.users = pre ++ u :: post ∧ u.id = user.id ∧
        d'.users = pre ++ ({ user with createdAt := u.createdAt, updatedAt := now } :: post)) ∧
      d'.users.map (fun v => v.createdAt) = d.users.map (fun v => v.createdAt)) := by
  constructor
  · intro hval hnone
    unfold JSONDatabase.UpdateUser
    rw [hval, updateUserLoop_notFound d.users user now hnone]
    rfl
  · intro d' hok
    unfold JSONDatabase.UpdateUser at hok
    split at hok
    · simp at hok
    · rw [except_map_eq_ok] at hok
      obtain ⟨us', hloop, rfl⟩ := hok
      obtain ⟨pre, u, post, h1, h2, h3⟩ := updateUserLoop_ok_decomp d.users user now us' hloop
      refine ⟨rfl, rfl, ⟨pre, u, post, h1, h2, h3⟩, ?_⟩
      simp [h1, h3]

/-- C10 witness: the amended theorem's not-found branch at the empty
database with the valid `ninaUser`. -/
theorem c10_witness :
    JSONDatabase.UpdateUser newJSONData ninaUser 7 = .error .userNotFound :=
  (c10_updateUser_preserves_createdAt newJSONData ninaUser 7).1
    (by simp [User.Validate, ninaUser, show ¬(100 < "Nina".length) from by decide])
    (by simp [newJSONData])

/-! ## Claim C6 -/

/-- Lookup characterization of the `GetAllEmbeddings` association list,
over any user list with pairwise-distinct IDs. -/
theorem getAllEmbeddings_lookup_aux (users : List User) (uid : String) (fs : List Face)
    (hnd : (users.map User.id).Nodup) :
    (users.filterMap (fun u =>
        if 0 < u.faces.length then some (u.id, u.faces) else none)).lookup uid
      = some fs ↔ ∃ u ∈ users, u.id = uid ∧ u.faces = fs ∧ fs ≠ [] := by
  induction users with
  | nil => simp
  | cons v rest ih =>
    rw [List.map_cons, List.nodup_cons] at hnd
    have ihr := ih hnd.2
    by_cases hf : 0 < v.faces.length
    · have hstep :
          List.filterMap (fun u =>
              if 0 < u.faces.length then some (u.id, u.faces) else none) (v :: rest)
            = (v.id, v.faces) :: List.filterMap (fun u =>
              if 0 < u.faces.length then some (u.id, u.faces) else none) rest :=
        List.filterMap_cons_some (if_pos hf)
      rw [hstep]
      by_cases hq : uid = v.id
      · simp only [List.lookup, hq, beq_self_eq_true]
        constructor
        · intro h
          refine ⟨v, List.mem_cons_self _ _, rfl, (Option.some_inj.mp h), ?_⟩
          rw [← Option.some_inj.mp h]
          exact List.length_pos.mp hf
        · rintro ⟨u, hu, h1, h2, h3⟩
          rcases List.mem_cons.mp hu with rfl | hmem
          · rw [h2]
          · refine absurd ?_ hnd.1
            have hm := List.mem_map_of_mem User.id hmem
            rwa [h1] at hm
      · simp only [List.lookup, beq_eq_false_iff_ne.mpr hq]
        rw [ihr]
        constructor
        · rintro ⟨u, hu, h1, h2, h3⟩
          exact ⟨u, List.mem_cons_of_mem _ hu, h1, h2, h3⟩
        · rintro ⟨u, hu, h1, h2, h3⟩
          rcases List.mem_cons.mp hu with rfl | hmem
          · exact absurd h1.symm hq
          · exact ⟨u, hmem, h1, h2, h3⟩
    · have hstep :
          List.filterMap (fun u =>
              if 0 < u.faces.length then some (u.id, u.faces) else none) (v :: rest)
            = List.filterMap (fun u =>
              if 0 < u.faces.length then some (u.id, u.faces) else none) rest :=
        List.filterMap_cons_none (if_neg hf)
      rw [hstep, ihr]
      constructor
      · rintro ⟨u, hu, h1, h2, h3⟩
        exact ⟨u, List.mem_cons_of_mem _ hu, h1, h2, h3⟩
      · rintro ⟨u, hu, h1, h2, h3⟩
        rcases List.mem_cons.mp hu with rfl | hmem
        · rw [List.length_eq_zero.mp (by omega : u.faces.length = 0)] at h2
          exact absurd h2.symm h3
        · exact ⟨u, hmem, h1, h2, h3⟩

/-- C6: under the database's unique-ID invariant, `GetAllEmbeddings`
looks up to a user's complete, unchanged face list exactly for the users
that have at least one stored face. -/
theorem c6_getAllEmbeddings_snapshot (d : JsonData) (uid : String) (fs : List Face)
    (hnd : (d.users.map User.id).Nodup) :
    (JSONDatabase.GetAllEmbeddings d).lookup uid = some fs ↔
      ∃ u ∈ d.users, u.id = uid ∧ u.faces = fs ∧ fs ≠ [] :=
  getAllEmbeddings_lookup_aux d.users uid fs hnd

/-- C6 witness: in `addedDb`, the lookup of `"u1"` returns exactly the
stored face list `[storedFace]`. -/
theorem c6_witness :
    (JSONDatabase.GetAllEmbeddings addedDb).lookup "u1" = some [storedFace] :=
  (c6_getAllEmbeddings_snapshot addedDb "u1" [storedFace]
      (by simp [addedDb, newJSONData])).mpr
    ⟨{ id := "u1", name := "Alice", email := "", phone := "", faces := [storedFace],
       createdAt := 0, updatedAt := 0 },
     by simp [addedDb, newJSONData], rfl, rfl, by simp⟩

/-! ## Claim C2 -/

/-- `(1:ℚ)/10` is below the enrollment floor `3/10`. -/
theorem low_lt_floor : (1:ℚ)/10 < 3/10 := by norm_num

/-- `oneUserDb` is non-empty. -/
theorem oneUserDb_ne : oneUserDb.users ≠ [] := by simp [oneUserDb, newJSONData]

/-- `enrollImage` keeps `goodImage` (quality 0.9). -/
theorem enrollImage_good : enrollImage goodImage = some goodFace := by
  simp only [enrollImage, goodImage, goodFace]
  norm_num

/-- `enrollImage` drops `failingImage` (processing error). -/
theorem enrollImage_failing : enrollImage failingImage = none := by
  simp [enrollImage, failingImage]

/-- C2: the enrollment loop never keeps a face processed below quality
0.3 (every kept face has quality ≥ 0.3); the identification workflow
reaches the matching phase for every successfully processed face
whatever its quality, and prints the low-quality warning exactly when
the quality is below 0.2; `addFaceToUser` (update workflow) rejects
below 0.3 with an error, storing nothing. -/
theorem c2_quality_gates :
    (∀ (img : ImageInput) (r : ProcessResult),
      img.processResult = .ok r → r.qualityScore < 3/10 → enrollImage img = none) ∧
    (∀ (img : ImageInput) (f : Face),
      enrollImage img = some f → 3/10 ≤ f.qualityScore) ∧
    (∀ (d : JsonData) (env : IdentifyEnv) (r : ProcessResult),
      env.processResult = .ok r → d.users ≠ [] →
      (runIdentify d env).attemptedMatch = true ∧
      ((runIdentify d env).warned = true ↔ r.qualityScore < 2/10)) ∧
    (∀ (d : JsonData) (uid : String) (img : ImageInput) (r : ProcessResult) (now : Nat),
      img.processResult = .ok r → r.qualityScore < 3/10 →
      addFaceToUser d uid img now =
        .error "quality too low, minimum required: 0.30") := by
  refine ⟨?_, ?_, ?_, ?_⟩
  · intro img r h hlt
    simp [enrollImage, h, hlt]
  · intro img f h
    unfold enrollImage at h
    split at h
    · simp at h
    · rename_i r heq
      split at h
      · simp at h
      · rename_i hge
        split at h
        · simp at h
        · rename_i filename hsave
          cases h
          exact le_of_not_lt hge
  · intro d env r h hne
    have hlen : ¬(d.users.length = 0) := by
      simpa [List.length_eq_zero] using hne
    cases hfb : env.findBestMatchesResult with
    | error e => simp [runIdentify, h, hfb, hlen]
    | ok l =>
      cases hm : env.matchResult with
      | error e =>
        by_cases he : e = DBError.noMatch <;>
          simp [runIdentify, h, hfb, hm, he, hlen]
      | ok m => simp [runIdentify, h, hfb, hm, hlen]
  · intro d uid img r now h hlt
    simp [addFaceToUser, h, hlt]

/-- C2 witness: `c2_quality_gates` at the concrete fixtures: the
0.1-quality image is dropped by enrollment, the kept `goodFace` has
quality ≥ 0.3, identification with the 0.1-quality `noMatchEnv` still
reaches matching, and `addFaceToUser` rejects the 0.1-quality image. -/
theorem c2_witness :
    enrollImage lowQualityImage = none ∧
    (3/10 : ℚ) ≤ goodFace.qualityScore ∧
    (runIdentify oneUserDb noMatchEnv).attemptedMatch = true ∧
    addFaceToUser oneUserDb "u1" lowQualityImage 0 =
      .error "quality too low, minimum required: 0.30" :=
  ⟨c2_quality_gates.1 lowQualityImage { embedding := [1], qualityScore := 1/10 }
      rfl low_lt_floor,
   c2_quality_gates.2.1 goodImage goodFace enrollImage_good,
   (c2_quality_gates.2.2.1 oneUserDb noMatchEnv { embedding := [1], qualityScore := 1/10 }
      rfl oneUserDb_ne).1,
   c2_quality_gates.2.2.2 oneUserDb "u1" lowQualityImage
      { embedding := [1], qualityScore := 1/10 } 0 rfl low_lt_floor⟩

/-! ## Claim C3 -/

/-- C3: in `runIdentify`, an `ErrNoMatch` outcome from `Match` makes the
command return success (after reporting no match), while any other
`Match` error is propagated as a failure. -/
theorem c3_noMatch_is_success (d : JsonData) (env : IdentifyEnv) (r : ProcessResult)
    (l : List (String × ℚ))
    (hp : env.processResult = .ok r) (hne : d.users ≠ [])
    (hfb : env.findBestMatchesResult = .ok l) :
    (env.matchResult = .error .noMatch → (runIdentify d env).result = .ok ()) ∧
    (∀ e, env.matchResult = .error e → e ≠ .noMatch →
      (runIdentify d env).result = .error (.matchFailed e)) := by
  have hlen : ¬(d.users.length = 0) := by
    simpa [List.length_eq_zero] using hne
  constructor
  · intro hm
    simp [runIdentify, hp, hfb, hm, hlen]
  · intro e hm hene
    simp [runIdentify, hp, hfb, hm, hlen, hene]

/-- C3 witness: on `noMatchEnv` over `oneUserDb` the command returns
success. -/
theorem c3_witness : (runIdentify oneUserDb noMatchEnv).result = .ok () :=
  (c3_noMatch_is_success oneUserDb noMatchEnv { embedding := [1], qualityScore := 1/10 }
      [("u1", 1/2)] rfl oneUserDb_ne rfl).1 rfl

/-! ## Claim C4 -/

/-- C4: enrollment is per-image skip-and-continue: removing an image on
which `enrollImage` fails (processing error, low quality, or storage
failure) does not change the collected face list; `runEnroll` ends in
the "no faces were successfully enrolled" error exactly when every image
failed, and on success the created user carries exactly the faces of the
successful images. -/
theorem c4_enroll_skip_and_continue (d : JsonData) (imgs : List ImageInput)
    (uid name email phone : String) (now : Nat) :
    (runEnroll d imgs uid name email phone now = .noFaces ↔
      ∀ img ∈ imgs, enrollImage img = none) ∧
    (∀ (xs : List ImageInput) (bad : ImageInput) (ys : List ImageInput),
      enrollImage bad = none →
      enrolledFaces (xs ++ bad :: ys) = enrolledFaces (xs ++ ys)) ∧
    (∀ (d' : JsonData) (u : User),
      runEnroll d imgs uid name email phone now = .success d' u →
      u.faces = enrolledFaces imgs) := by
  have key : runEnroll d imgs uid name email phone now = .noFaces ↔
      (enrolledFaces imgs).length = 0 := by
    by_cases hz : (enrolledFaces imgs).length = 0
    · simp [runEnroll, hz]
    · cases hc : JSONDatabase.CreateUser d
          { id := uid, name := name, email := email, phone := phone,
            faces := enrolledFaces imgs, createdAt := 0, updatedAt := 0 } now uid with
      | error e => simp [runEnroll, hz, hc]
      | ok d2 => simp [runEnroll, hz, hc]
  refine ⟨?_, ?_, ?_⟩
  · rw [key]
    simp [enrolledFaces, List.length_eq_zero, List.filterMap_eq_nil_iff]
  · intro xs bad ys h
    simp [enrolledFaces, List.filterMap_append, List.filterMap_cons, h]
  · intro d' u h
    simp only [runEnroll] at h
    split at h
    · simp at h
    · split at h
      · simp at h
      · cases h
        rfl

/-- C4 witness: with the single `failingImage`, every image fails and
`runEnroll` returns the "no faces" error. -/
theorem c4_witness :
    runEnroll oneUserDb [failingImage] "u7" "Dave" "" "" 0 = .noFaces :=
  (c4_enroll_skip_and_continue oneUserDb [failingImage] "u7" "Dave" "" "" 0).1.mpr
    (by simp [enrollImage_failing])

/-! ## Claim C8 -/

/-- Head step of the dot product. -/
theorem dotList_cons (x y : ℝ) (a b : List ℝ) :
    dotList (x :: a) (y :: b) = x * y + dotList a b := by
  simp [dotList]

/-- Head step of the sum of squares. -/
theorem sumSq_cons (x : ℝ) (a : List ℝ) : sumSq (x :: a) = x * x + sumSq a := by
  simp [sumSq]

/-- Sums of squares are nonnegative. -/
theorem sumSq_nonneg (a : List ℝ) : 0 ≤ sumSq a := by
  unfold sumSq
  apply List.sum_nonneg
  intro x hx
  obtain ⟨y, _, rfl⟩ := List.mem_map.mp hx
  exact mul_self_nonneg y

/-- Cauchy–Schwarz for the list dot product, squared form. -/
theorem dotList_sq_le (a b : List ℝ) : (dotList a b)^2 ≤ sumSq a * sumSq b := by
  induction a generalizing b with
  | nil => simp [dotList, sumSq]
  | cons x a ih =>
    cases b with
    | nil => simp [dotList, sumSq, mul_nonneg (sumSq_nonneg (x :: a)) (le_refl 0)]
    | cons y b =>
      have h := ih b
      have ha := sumSq_nonneg a
      have hb := sumSq_nonneg b
      rw [dotList_cons, sumSq_cons, sumSq_cons]
      rcases lt_or_eq_of_le hb with hbpos | hbzero
      · nlinarith [sq_nonneg (x * sumSq b - y * dotList a b),
          mul_nonneg hb (sub_nonneg.mpr h),
          mul_nonneg (sq_nonneg y) (sub_nonneg.mpr h)]
      · have hq0 : sumSq b = 0 := hbzero.symm
        have hd2 : (dotList a b)^2 = 0 := by
          have h' := h
          rw [hq0, mul_zero] at h'
          exact le_antisymm h' (sq_nonneg _)
        have hd : dotList a b = 0 := sq_eq_zero_iff.mp hd2
        rw [hd, hq0]
        nlinarith [mul_nonneg ha (sq_nonneg y), sq_nonneg (x*y)]

/-- The singleton zero vector has zero norm. -/
theorem norm2_zero_singleton : norm2 [(0:ℝ)] = 0 := by
  simp [norm2, sumSq]

/-- C8 (spec-modelled): `Similarity` returns exactly 0 whenever either
input has zero L2 norm, and its value always lies in [-1, 1]. -/
theorem c8_similarity_spec (a b : List ℝ) :
    (norm2 a = 0 ∨ norm2 b = 0 → Similarity a b = 0) ∧
    -1 ≤ Similarity a b ∧ Similarity a b ≤ 1 := by
  by_cases h : norm2 a = 0 ∨ norm2 b = 0
  · unfold Similarity
    rw [if_pos h]
    norm_num
  · unfold Similarity
    rw [if_neg h]
    push_neg at h
    obtain ⟨ha, hb⟩ := h
    have hsa := sumSq_nonneg a
    have hsb := sumSq_nonneg b
    have hna : 0 < norm2 a := lt_of_le_of_ne (Real.sqrt_nonneg _) (Ne.symm ha)
    have hnb : 0 < norm2 b := lt_of_le_of_ne (Real.sqrt_nonneg _) (Ne.symm hb)
    have hsqa : norm2 a ^ 2 = sumSq a := Real.sq_sqrt hsa
    have hsqb : norm2 b ^ 2 = sumSq b := Real.sq_sqrt hsb
    have hcs := dotList_sq_le a b
    have h2 : (dotList a b)^2 ≤ (norm2 a * norm2 b)^2 := by
      rw [mul_pow, hsqa, hsqb]
      exact hcs
    have habs : |dotList a b| ≤ norm2 a * norm2 b := by
      nlinarith [sq_abs (dotList a b), abs_nonneg (dotList a b), mul_pos hna hnb]
    have hq : |dotList a b / (norm2 a * norm2 b)| ≤ 1 := by
      rw [abs_div, abs_of_pos (mul_pos hna hnb)]
      exact (div_le_one (mul_pos hna hnb)).mpr habs
    exact ⟨fun hfalse => absurd hfalse (by simp [not_or, ha, hb]), abs_le.mp hq⟩

/-- C8 witness: the zero vector yields similarity exactly 0, within the
stated bounds. -/
theorem c8_witness :
    Similarity [(0:ℝ)] [(1:ℝ)] = 0 ∧ Similarity [(0:ℝ)] [(1:ℝ)] ≤ 1 :=
  ⟨(c8_similarity_spec [(0:ℝ)] [(1:ℝ)]).1 (Or.inl norm2_zero_singleton),
   (c8_similarity_spec [(0:ℝ)] [(1:ℝ)]).2.2⟩
